import Mathlib

/-!
A shallow embedding of `pyzwaver/command.py`: the Z-Wave application-command
codec (per-tag field parsers, `ParseCommand`, `AssembleCommand`) and the
value resolver (`GetValue` with the sensor/meter unit tables).

Modelling conventions:
* Python values flowing through the codec are modelled by the inductive type
  `PyVal` (`None`, `int`, `float`, `str`, `bytes`, `list`, `set`).
* Python floats are modelled by `ℚ`; every float this code produces is an
  integer of magnitude well below 2^53 (sizes are at most 4 bytes) divided by
  a power of ten, and every property checked here involves only values on
  which IEEE doubles and `ℚ` agree exactly.
* Python byte buffers are `List Nat`.  List indexing on paths that the source
  keeps in bounds is modelled with `List.getD`; Python slices clamp at the
  ends exactly as `List.drop`/`List.take` do.
* A raised Python exception (failed `assert`, `IndexError`, `TypeError`,
  string-decode error) is modelled as a `none` result, as is a returned
  Python `None` at a parser's value position; `PyVal.pyNone` is used only
  where a `None` sits inside a data structure (e.g. meter value lists).
* The schema table `zwave.SUBCMD_TO_PARSE_TABLE` lives in `zwave.py`, which
  is not part of the sources given; functions that consult it take an
  explicit `lookup : Nat → Option (List Char)` argument, modelled from the
  spec's Schema Table interface (`lookup(class, command) -> Option<Schema>`,
  a schema being an ordered list of field-type tags).
-/

/-- A Python value as it flows through the codec and resolver. -/
inductive PyVal where
  | pyNone : PyVal
  | int : Nat → PyVal
  | rat : ℚ → PyVal
  | str : String → PyVal
  | bytes : List Nat → PyVal
  | list : List PyVal → PyVal
  | set : Finset Nat → PyVal

/-- `UNIT_NONE = ""` from the source. -/
def UNIT_NONE : PyVal := .str ""

/-- `_GetSignedValue(m, index, size)`: `negative = (m[index] & 0x80) != 0`;
the loop does `value <<= 8` and then adds `~m[index + i]` (Python `~x`,
i.e. `-x-1`, with no 8-bit mask) when negative, else `m[index + i]`;
finally the negative case returns `-(value + 1)`.  The Python result is a
float holding this integer exactly. -/
def _GetSignedValue (m : List Nat) (index : Nat) (size : Nat) : Int :=
  let negative : Bool := m.getD index 0 &&& 0x80 != 0
  let value : Int := (List.range size).foldl
    (fun v i =>
      v * 256 +
        (if negative then -((m.getD (index + i) 0 : Int) + 1)
         else (m.getD (index + i) 0 : Int))) 0
  if negative then -(value + 1) else value

/-- `_GetReading(m, index, units_extra)`: the header byte at `index` packs
`size = b & 7`, `units = ((b & 0x18) >> 3) | units_extra` and
`precision = (b & 0xe0) >> 5`; the reading is the signed magnitude of the
next `size` bytes divided by `10 ^ precision`, and the cursor advances to
`index + 1 + size`.  `_GetReading` has no bounds guard of its own:
`_GetSignedValue` reads the sign byte `m[index + 1]` unconditionally (even
for `size = 0`) and the `size` magnitude bytes `m[index + 1 + i]`, so a
header byte or a magnitude running past the end of the buffer raises
`IndexError`, modelled as `none`; inside the guard every access is in
range, where the `getD`-based reads are exact. -/
def _GetReading (m : List Nat) (index : Nat) (units_extra : Nat) :
    Option (Nat × (Nat × ℚ)) :=
  let size := m.getD index 0 &&& 0x7
  let units := ((m.getD index 0 &&& 0x18) >>> 3) ||| units_extra
  let precision := (m.getD index 0 &&& 0xe0) >>> 5
  let value : ℚ := (_GetSignedValue m (index + 1) size : ℚ) / 10 ^ precision
  if index + 1 < m.length ∧ index + 1 + size ≤ m.length then
    some (index + 1 + size, (units, value))
  else none

/-- `_GetTimeDelta(m, index)`: 2-byte big-endian value (the caller checks
that both bytes are in range before calling). -/
def _GetTimeDelta (m : List Nat) (index : Nat) : Nat × Nat :=
  (index + 2, m.getD index 0 * 256 + m.getD (index + 1) 0)

/-- `_ExtractValues(m, index, units_extra)`: when the buffer is already
exhausted it returns the THREE-element list `[val1, dt, val2]` (the source's
early `return index, [val1, dt, val2]` omits `unit`); otherwise one reading,
an optional time delta (only if at least 2 bytes remain) and an optional
second reading, as the FOUR-element list `[unit, val1, dt, val2]`.  An
`IndexError` raised by either reading (its magnitude bytes running past the
end of the buffer) propagates as `none`. -/
def _ExtractValues (m : List Nat) (index : Nat) (units_extra : Nat) :
    Option (Nat × List PyVal) :=
  if index ≥ m.length then
    some (index, [PyVal.pyNone, PyVal.pyNone, PyVal.pyNone])
  else
    match _GetReading m index units_extra with
    | none => none
    | some r1 =>
      let unit := r1.2.1
      let val1 := r1.2.2
      let i1 := r1.1
      let d : Nat × PyVal :=
        if i1 + 1 < m.length then
          let t := _GetTimeDelta m i1
          (t.1, PyVal.int t.2)
        else (i1, PyVal.pyNone)
      if d.1 < m.length then
        match _GetReading m d.1 units_extra with
        | none => none
        | some r2 =>
          some (r2.1, [PyVal.int unit, PyVal.rat val1, d.2, PyVal.rat r2.2.2])
      else
        some (d.1, [PyVal.int unit, PyVal.rat val1, d.2, PyVal.pyNone])

/-- `_ParseMeter(m, index)`: the header byte (an out-of-range cursor is an
`IndexError`) packs `units_extra = (b & 0x80) >> 5` and
`meter_type = b & 0x1f`; the rest is handed to `_ExtractValues`, and the
result list is `[meter_type] ++ val`.  An `IndexError` from a truncated
reading inside `_ExtractValues` propagates as an error result. -/
def _ParseMeter (m : List Nat) (index : Nat) : Nat × Option PyVal :=
  if m.length ≤ index then (index, none)
  else
    let units_extra := (m.getD index 0 &&& 0x80) >>> 5
    let meter_type := m.getD index 0 &&& 0x1f
    match _ExtractValues m (index + 1) units_extra with
    | some r => (r.1, some (.list (.int meter_type :: r.2)))
    | none => (index, none)

/-- `_ParseByte(m, index)`: one byte; `None` if no byte remains. -/
def _ParseByte (m : List Nat) (index : Nat) : Nat × Option PyVal :=
  if m.length ≤ index then (index, none)
  else (index + 1, some (.int (m.getD index 0)))

/-- `_ParseWord(m, index)`: 2-byte big-endian; `None` if fewer than 2 bytes
remain. -/
def _ParseWord (m : List Nat) (index : Nat) : Nat × Option PyVal :=
  if m.length ≤ index + 1 then (index, none)
  else (index + 2, some (.int (m.getD index 0 * 256 + m.getD (index + 1) 0)))

/-- The three text encodings of `_ENCODING_TO_DECODER`
(`["ascii", "latin1", "utf-16-be"]`). -/
inductive TextEncoding where
  | ascii : TextEncoding
  | latin1 : TextEncoding
  | utf16be : TextEncoding

/-- `_ENCODING_TO_DECODER`: the decoder table indexed by the selector. -/
def _ENCODING_TO_DECODER : List TextEncoding :=
  [.ascii, .latin1, .utf16be]

/-- Python `bytes.decode("ascii")`: strict, fails on any byte ≥ 0x80. -/
def decodeAscii (bs : List Nat) : Option (List Nat) :=
  if bs.all (fun b => b < 128) then some bs else none

/-- Python `bytes.decode("latin1")`: every byte maps to the code point of
the same value. -/
def decodeLatin1 (bs : List Nat) : Option (List Nat) :=
  some bs

/-- Python `bytes.decode("utf-16-be")` (strict): big-endian 16-bit units,
surrogate pairs combined, errors on an odd byte count or a lone/misordered
surrogate. -/
def decodeUtf16be : List Nat → Option (List Nat)
  | [] => some []
  | [_] => none
  | b1 :: b2 :: rest =>
    let u := b1 * 256 + b2
    if 0xD800 ≤ u ∧ u < 0xDC00 then
      match rest with
      | c1 :: c2 :: rest2 =>
        let v := c1 * 256 + c2
        if 0xDC00 ≤ v ∧ v < 0xE000 then
          (decodeUtf16be rest2).map
            (fun l => (0x10000 + (u - 0xD800) * 0x400 + (v - 0xDC00)) :: l)
        else none
      | _ => none
    else if 0xDC00 ≤ u ∧ u < 0xE000 then none
    else (decodeUtf16be rest).map (fun l => u :: l)

/-- Decode bytes with one of the three encodings, as a list of code
points. -/
def decodeText : TextEncoding → List Nat → Option (List Nat)
  | .ascii, bs => decodeAscii bs
  | .latin1, bs => decodeLatin1 bs
  | .utf16be, bs => decodeUtf16be bs

/-- Build a Python string value from decoded code points.  Every code point
the three decoders produce is a valid scalar value, so `Char.ofNat` is
exact here. -/
def strOfCodePoints (cps : List Nat) : PyVal :=
  .str (String.mk (cps.map Char.ofNat))

/-- `_ParseName(m, index)`: `assert len(m) > index` (a failed assert is an
error result); `encoding = m[index] & 3` — a 2-bit selector; the remainder
`m[index + 1:]` is decoded with `_ENCODING_TO_DECODER[encoding]`, where
selector 3 indexes past the end of the 3-entry table (`IndexError`, an
error result), and a strict decode failure also raises. -/
def _ParseName (m : List Nat) (index : Nat) : Nat × Option PyVal :=
  if index < m.length then
    let encoding := m.getD index 0 &&& 3
    let b := m.drop (index + 1)
    match _ENCODING_TO_DECODER.get? encoding with
    | some e => (m.length, (decodeText e b).map strOfCodePoints)
    | none => (m.length, none)
  else (index, none)

/-- `_ParseStringWithLength(m, index)`: the source reads `size = m[index]`
and then returns `m[index + 1, size]`, which indexes the list with a TUPLE
and raises `TypeError` on every call; the unconditional exception is
modelled as an error result. -/
def _ParseStringWithLength (_m : List Nat) (index : Nat) : Nat × Option PyVal :=
  (index, none)

/-- `_ParseStringWithLengthAndEncoding(m, index)`: `encoding = m[index] >> 5`,
`size = m[index] & 0x1f`; returns cursor `1 + size` (the source omits
`index`) and `[encoding, bytes(m[index + 1:index + size])]` — a slice of
`size - 1` bytes. -/
def _ParseStringWithLengthAndEncoding (m : List Nat) (index : Nat) :
    Nat × Option PyVal :=
  let encoding := m.getD index 0 >>> 5
  let size := m.getD index 0 &&& 0x1f
  (1 + size, some (.list [.int encoding, .bytes ((m.drop (index + 1)).take (size - 1))]))

/-- `_ParseListRest(m, index)`: the rest of the buffer as a list. -/
def _ParseListRest (m : List Nat) (index : Nat) : Nat × Option PyVal :=
  let size := m.length - index
  (index + size, some (.list ((m.drop index).map .int)))

/-- `_ExtractBitVector(data, offset)`: bit `j` of byte `i` set contributes
`j + i * 8 + offset` to the result set. -/
def _ExtractBitVector (data : List Nat) (offset : Nat) : Finset Nat :=
  (List.range data.length).foldl
    (fun s i =>
      (List.range 8).foldl
        (fun s2 j =>
          if data.getD i 0 &&& (1 <<< j) ≠ 0 then insert (j + i * 8 + offset) s2
          else s2) s)
    ∅

/-- `_ParseBitVector(m, index)`: `size = m[index]`, then the bit vector of
`m[index + 1:index + 1 + size]` (the slice clamps, so a short buffer still
yields a set, never `None`). -/
def _ParseBitVector (m : List Nat) (index : Nat) : Nat × Option PyVal :=
  let size := m.getD index 0
  (index + 1 + size, some (.set (_ExtractBitVector ((m.drop (index + 1)).take size) 0)))

/-- `_ParseBitVectorRest(m, index)`: bit vector of the whole rest. -/
def _ParseBitVectorRest (m : List Nat) (index : Nat) : Nat × Option PyVal :=
  let size := m.length - index
  (index + size, some (.set (_ExtractBitVector (m.drop index) 0)))

/-- `_ParseNonce(m, index)`: 8 bytes; `None` if fewer remain. -/
def _ParseNonce (m : List Nat) (index : Nat) : Nat × Option PyVal :=
  if m.length < index + 8 then (index, none)
  else (index + 8, some (.list (((m.drop index).take 8).map .int)))

/-- `_ParseDataRest(m, index)`: the rest of the buffer as a list. -/
def _ParseDataRest (m : List Nat) (index : Nat) : Nat × Option PyVal :=
  let size := m.length - index
  (index + size, some (.list ((m.drop index).map .int)))

/-- `_GetIntLittleEndian(m)`. -/
def _GetIntLittleEndian (m : List Nat) : Nat :=
  (m.foldl (fun p i => (p.1 + (i <<< p.2), p.2 + 8)) ((0 : Nat), (0 : Nat))).1

/-- `_GetIntBigEndian(m)`. -/
def _GetIntBigEndian (m : List Nat) : Nat :=
  m.foldl (fun x i => x * 256 + i) 0

/-- `_ParseRestLittleEndianInt(m, index)`. -/
def _ParseRestLittleEndianInt (m : List Nat) (index : Nat) : Nat × Option PyVal :=
  let size := m.length - index
  (index + size, some (.int (_GetIntLittleEndian (m.drop index))))

/-- `_ParseSensor(m, index)`: needs at least 2 bytes, else `None`; the header
byte packs `precision = (c >> 5) & 7`, `scale = (c >> 3) & 3`,
`size = c & 7`; needs `1 + size` bytes, else `None`; result
`[scale, signed_magnitude / 10 ^ precision]`. -/
def _ParseSensor (m : List Nat) (index : Nat) : Nat × Option PyVal :=
  if m.length < index + 2 then (index, none)
  else
    let c := m.getD index 0
    let precision := (c >>> 5) &&& 7
    let scale := (c >>> 3) &&& 3
    let size := c &&& 7
    if m.length < index + 1 + size then (index, none)
    else
      (index + 1 + size,
       some (.list [.int scale,
                    .rat ((_GetSignedValue m (index + 1) size : ℚ) / 10 ^ precision)]))

/-- `_ParseValue(m, index)`: `size = m[index] & 7`; result
`[size, big_endian(m[index + 1:index + 1 + size])]` (the slice clamps; no
truncation check). -/
def _ParseValue (m : List Nat) (index : Nat) : Nat × Option PyVal :=
  let size := m.getD index 0 &&& 0x7
  (index + 1 + size,
   some (.list [.int size, .int (_GetIntBigEndian ((m.drop (index + 1)).take size))]))

/-- `_ParseDate(m, index)`: needs 7 bytes, else returns `(len(m), None)`;
result `[year, month, day, hour, min, sec]` with a 2-byte year. -/
def _ParseDate (m : List Nat) (index : Nat) : Nat × Option PyVal :=
  if m.length < index + 7 then (m.length, none)
  else
    (index + 7,
     some (.list [.int (m.getD index 0 * 256 + m.getD (index + 1) 0),
                  .int (m.getD (index + 2) 0), .int (m.getD (index + 3) 0),
                  .int (m.getD (index + 4) 0), .int (m.getD (index + 5) 0),
                  .int (m.getD (index + 6) 0)]))

/-- `_PARSE_ACTIONS`: the tag-character dispatch table of field parsers;
a tag outside the table is a `KeyError` (modelled as `none`). -/
def _PARSE_ACTIONS (t : Char) :
    Option (List Nat → Nat → Nat × Option PyVal) :=
  if t = 'A' then some _ParseStringWithLength
  else if t = 'F' then some _ParseStringWithLengthAndEncoding
  else if t = 'B' then some _ParseByte
  else if t = 'C' then some _ParseDate
  else if t = 'N' then some _ParseName
  else if t = 'L' then some _ParseListRest
  else if t = 'R' then some _ParseRestLittleEndianInt
  else if t = 'W' then some _ParseWord
  else if t = 'V' then some _ParseValue
  else if t = 'M' then some _ParseMeter
  else if t = 'O' then some _ParseNonce
  else if t = 'D' then some _ParseDataRest
  else if t = 'T' then some _ParseBitVector
  else if t = 'U' then some _ParseBitVectorRest
  else if t = 'X' then some _ParseSensor
  else none

/-- `_GetParameterDescriptors(m)`: `None` for a frame shorter than 2 bytes,
otherwise the schema registered for `m[0] * 256 + m[1]`.  The schema table is
the `lookup` argument (see the header: `zwave.SUBCMD_TO_PARSE_TABLE` is not
among the given sources and is modelled from the spec's Schema Table
interface). -/
def _GetParameterDescriptors (lookup : Nat → Option (List Char))
    (m : List Nat) : Option (List Char) :=
  if m.length < 2 then none
  else lookup (m.getD 0 0 * 256 + m.getD 1 0)

/-- The field loop of `ParseCommand`: run each tag's parser in order from the
cursor, aborting with `None` when a parser yields a `None` value (or when a
tag has no parser — a `KeyError` in the source). -/
def ParseFields (m : List Nat) : List Char → Nat → Option (List PyVal)
  | [], _ => some []
  | t :: ts, index =>
    match _PARSE_ACTIONS t with
    | none => none
    | some p =>
      match p m index with
      | (_, none) => none
      | (newIndex, some v) => (ParseFields m ts newIndex).map (v :: ·)

/-- `ParseCommand(m)`: decode an API_APPLICATION_COMMAND frame into its list
of field values.  A missing schema (or a frame shorter than 2 bytes) yields
the empty list `[]`; a field-level failure yields `None`; otherwise the
fields are parsed starting at offset 2. -/
def ParseCommand (lookup : Nat → Option (List Char)) (m : List Nat) :
    Option (List PyVal) :=
  match _GetParameterDescriptors lookup m with
  | none => some []
  | some table => ParseFields m table 2

/-- `_MakeValue(conf, value)`: `size = conf & 7` with `assert size in
(1, 2, 4)` (failure modelled as `none`); emits `conf` followed by the `size`
bytes of `value`, most significant first. -/
def _MakeValue (conf : Nat) (value : Nat) : Option (List Nat) :=
  let size := conf &&& 7
  if size = 1 ∨ size = 2 ∨ size = 4 then
    some (conf :: (List.range size).reverse.map
      (fun k => (value >>> (8 * k)) &&& 0xff))
  else none

/-- `_MakeDate(date)`: 7 bytes from the six components
`[year, month, day, hour, min, sec]` (year split big-endian); an argument
of any other shape is a caller contract violation, modelled as `none`. -/
def _MakeDate (date : PyVal) : Option (List Nat) :=
  match date with
  | .list (.int y :: .int mo :: .int d :: .int h :: .int mi :: .int s :: _) =>
    some [y / 256, y % 256, mo, d, h, mi, s]
  | _ => none

/-- One `AssembleCommand` loop iteration: the bytes contributed for argument
`v` under tag `t`.  Faithful points: `'N'` appends the literal byte `1` and
drops the string (the source's character emission is commented out); `'Y'`
skips a `None`; `'O'` appends the nonce bytes without enforcing the length
(the length check only logs); `'S'` and every tag without a branch hit
`assert False`.  An argument whose shape does not match the tag is a caller
contract violation (the source would raise or emit garbage bytes); it is
modelled as `none` and never exercised by the theorems below. -/
def AssembleField (t : Char) (v : PyVal) : Option (List Nat) :=
  if t = 'B' then
    match v with
    | .int n => some [n]
    | _ => none
  else if t = 'Y' then
    match v with
    | .pyNone => some []
    | .int n => some [n]
    | _ => none
  else if t = 'N' then
    some [1]
  else if t = 'K' then
    match v with
    | .list l =>
      if l.length = 16 then
        match l.mapM (fun x => match x with | .int n => some n | _ => none) with
        | some ns => some ns
        | none => none
      else none
    | .bytes bs => if bs.length = 16 then some bs else none
    | _ => none
  else if t = 'D' then
    match v with
    | .list l =>
      match l.mapM (fun x => match x with | .int n => some n | _ => none) with
      | some ns => some ns
      | none => none
    | .bytes bs => some bs
    | _ => none
  else if t = 'L' then
    match v with
    | .list l =>
      match l.mapM (fun x => match x with | .int n => some n | _ => none) with
      | some ns => some ns
      | none => none
    | .bytes bs => some bs
    | _ => none
  else if t = 'C' then
    _MakeDate v
  else if t = 'O' then
    match v with
    | .list l =>
      match l.mapM (fun x => match x with | .int n => some n | _ => none) with
      | some ns => some ns
      | none => none
    | .bytes bs => some bs
    | _ => none
  else if t = 'V' then
    match v with
    | .list (.int conf :: .int value :: _) => _MakeValue conf value
    | _ => none
  else none

/-- The argument loop of `AssembleCommand`: argument `i` is encoded under
schema tag `i`; a missing argument is an `IndexError` (`none`); surplus
arguments are ignored. -/
def AssembleFields : List Char → List PyVal → Option (List Nat)
  | [], _ => some []
  | _ :: _, [] => none
  | t :: ts, v :: vs =>
    match AssembleField t v with
    | none => none
    | some bs => (AssembleFields ts vs).map (bs ++ ·)

/-- `AssembleCommand(raw_cmd)` with `raw_cmd = [class, subcommand, arg1, …]`:
emits the two header bytes followed by the per-tag encodings of the
arguments under the schema registered for `class * 256 + subcommand` (a
missing schema is a `KeyError`, modelled as `none`). -/
def AssembleCommand (lookup : Nat → Option (List Char)) (raw : List PyVal) :
    Option (List Nat) :=
  match raw with
  | .int c :: .int d :: args =>
    match lookup (c * 256 + d) with
    | none => none
    | some table => (AssembleFields table args).map (fun bs => c :: d :: bs)
  | _ => none

/-- `SENSOR_TYPES`: each row of the source is the 2-list
`[kind_label, [unit_by_scale × 4]]`, modelled as a pair; `None` slots are
`PyVal.pyNone`. -/
def SENSOR_TYPES : List (PyVal × List PyVal) :=
  [(.str "@invalid@", [.pyNone, .pyNone, .pyNone, .pyNone]),
   (.str "Temperature", [.str "C", .str "F", .pyNone, .pyNone]),
   (.str "General", [.str "%", .pyNone, .pyNone, .pyNone]),
   (.str "Luminance", [.str "%", .str "lux", .pyNone, .pyNone]),
   (.str "Power", [.str "W", .str "BTU/h", .pyNone, .pyNone]),
   (.str "Relative Humidity", [.str "%", .pyNone, .pyNone, .pyNone]),
   (.str "Velocity", [.str "m/s", .str "mph", .pyNone, .pyNone]),
   (.str "Direction", [.str "", .str "", .pyNone, .pyNone]),
   (.str "Atmospheric Pressure", [.str "kPa", .str "inHg", .pyNone, .pyNone]),
   (.str "Barometric Pressure", [.str "kPa", .str "inHg", .pyNone, .pyNone]),
   (.str "Solar Radiation", [.str "W/m2", .pyNone, .pyNone, .pyNone]),
   (.str "Dew Point", [.str "C", .str "F", .pyNone, .pyNone]),
   (.str "Rain Rate", [.str "mm/h", .str "in/h", .pyNone, .pyNone]),
   (.str "Tide Level", [.str "m", .str "ft", .pyNone, .pyNone]),
   (.str "Weight", [.str "kg", .str "lb", .pyNone, .pyNone]),
   (.str "Voltage", [.str "kg", .str "lb", .pyNone, .pyNone]),
   (.str "Current", [.str "A", .str "mA", .pyNone, .pyNone]),
   (.str "CO2 Level", [.str "ppm", .pyNone, .pyNone, .pyNone]),
   (.str "Air Flow", [.str "m3/h", .str "cfm", .pyNone, .pyNone]),
   (.str "Tank Capacity", [.str "l", .str "cbm", .str "gal", .pyNone]),
   (.str "Distance", [.str "m", .str "cm", .str "ft", .pyNone]),
   (.str "Angle Position", [.str "%", .str "deg N", .str "deg S", .pyNone]),
   (.str "Rotation", [.str "rpm", .str "Hz", .pyNone, .pyNone]),
   (.str "Water Temperature", [.str "C", .str "F", .pyNone, .pyNone]),
   (.str "Soil Temperature", [.str "C", .str "F", .pyNone, .pyNone]),
   (.str "Seismic Intensity",
    [.str "mercalli", .str "EU macroseismic", .str "liedu", .str "shindo"]),
   (.str "Seismic Magnitude",
    [.str "local", .str "moment", .str "surface wave", .str "body wave"]),
   (.str "Utraviolet", [.str "", .str "", .pyNone, .pyNone]),
   (.str "Electrical Resistivity", [.str "ohm", .pyNone, .pyNone, .pyNone]),
   (.str "Electrical Conductivity", [.str "siemens/m", .pyNone, .pyNone, .pyNone]),
   (.str "Loudness", [.str "db", .str "dbA", .pyNone, .pyNone]),
   (.str "Moisture",
    [.str "%", .str "content", .str "k ohms", .str "water activity"])]

/-- `METER_TYPES`: rows `[kind_label, [unit_by_scale × 8]]`, as pairs. -/
def METER_TYPES : List (PyVal × List PyVal) :=
  [(.str "@invalid@",
    [.pyNone, .pyNone, .pyNone, .pyNone, .pyNone, .pyNone, .pyNone, .pyNone]),
   (.str "Electric",
    [.str "kWh", .str "kVAh", .str "W", .str "Pulses",
     .str "V", .str "A", .str "Power-Factor", .pyNone]),
   (.str "Gas",
    [.str "m^3", .str "ft^3", .pyNone, .str "Pulses",
     .pyNone, .pyNone, .pyNone, .pyNone]),
   (.str "Water",
    [.str "m^3", .str "ft^3", .pyNone, .str "Pulses",
     .pyNone, .pyNone, .pyNone, .pyNone])]

/-- The `Value` class: `kind`, `unit`, `value`, and the meter-only
`meter_time_delta` (default `0`) and `meter_prev` (default `0.0`). -/
structure Value where
  kind : PyVal
  unit : PyVal
  value : PyVal
  meter_time_delta : PyVal
  meter_prev : PyVal

/-- `GetValue(action, value)`: the value resolver.  It MUTATES its first
argument: `t = action.pop(0)` and the per-branch pops remove elements from
the front of the caller's list; the model threads the mutated list through
as the second component of the result.  A failed `assert`, an out-of-range
index or a pop from an empty list is an exception, modelled as a `none`
first component (paired with the list as mutated up to that point).
Branch order, pop order and the positional `action[2]` reads follow the
source line by line. -/
def GetValue (action : List PyVal) (value : List PyVal) :
    Option Value × List PyVal :=
  match action with
  | [] => (none, [])
  | t :: act =>
    match t with
    | PyVal.str s =>
      if s = "ItemScalar" then
        match value with
        | [v0] =>
          match v0 with
          | PyVal.list _ => (none, act)
          | _ =>
            match act with
            | kind :: rest =>
              (some ⟨kind, UNIT_NONE, v0, .int 0, .rat 0⟩, rest)
            | [] => (none, [])
        | _ => (none, act)
      else if s = "ItemList" then
        match act with
        | kind :: rest =>
          (some ⟨kind, UNIT_NONE, .list value, .int 0, .rat 0⟩, rest)
        | [] => (none, [])
      else if s = "ItemConst" then
        match act with
        | kind :: val :: rest =>
          (some ⟨kind, UNIT_NONE, val, .int 0, .rat 0⟩, rest)
        | _ => (none, [])
      else if s = "ItemSensorValue" then
        match act with
        | kind :: unit :: rest =>
          match value with
          | [v0] => (some ⟨kind, unit, v0, .int 0, .rat 0⟩, rest)
          | _ => (none, rest)
        | _ => (none, [])
      else if s = "ItemSensorNormal" then
        match value with
        | [PyVal.int kind, PyVal.list [PyVal.int scale, reading]] =>
          match SENSOR_TYPES.get? kind with
          | some info =>
            match info.2.get? scale with
            | some unit =>
              match unit with
              | PyVal.pyNone => (none, act)
              | _ => (some ⟨info.1, unit, reading, .int 0, .rat 0⟩, act)
            | none => (none, act)
          | none => (none, act)
        | _ => (none, act)
      else if s = "ItemMapList" then
        match act with
        | _kind :: rest =>
          match rest.get? 2 with
          | some u =>
            match value with
            | v0 :: vrest => (some ⟨v0, u, .list vrest, .int 0, .rat 0⟩, rest)
            | [] => (none, rest)
          | none => (none, rest)
        | [] => (none, [])
      else if s = "ItemMapScalar" then
        match act.get? 2 with
        | some u =>
          match value with
          | v0 :: v1 :: _ => (some ⟨v0, u, v1, .int 0, .rat 0⟩, act)
          | _ => (none, act)
        | none => (none, act)
      else if s = "ItemMeterNormal" then
        match value with
        | [PyVal.list [PyVal.int kind, PyVal.int scale, rd, dt, pv]] =>
          match METER_TYPES.get? kind with
          | some info =>
            match info.2.get? scale with
            | some unit =>
              match unit with
              | PyVal.pyNone => (none, act)
              | _ => (some ⟨info.1, unit, rd, dt, pv⟩, act)
            | none => (none, act)
          | none => (none, act)
        | _ => (none, act)
      else (none, act)
    | _ => (none, act)

/-- A spec-modelled schema table for claim C1 registering one key,
class `0x77`/command `0x03`, with the one-tag schema `['N']` (a
name-report-style command: its only field is a string with an encoding
byte).  The concrete table stands in for the external
`zwave.SUBCMD_TO_PARSE_TABLE`. -/
def nameReportTable : Nat → Option (List Char) :=
  fun k => if k = 119 * 256 + 3 then some ['N'] else none

/-- Claim C2 (status: code_bug).  The spec says the signed-magnitude decoder
yields `-128.0` for byte `0x80`, `127.0` for `0x7F` and `-1.0` for
`[0xFF, 0xFF]`.  The source's negative branch adds Python `~m[index + i]`
WITHOUT an 8-bit mask (`~x = -x - 1` on unbounded ints), so the negative
cases come out positive: `0x80` decodes to `+128.0` and `[0xFF, 0xFF]` to
`+65791.0`; only the non-negative case `0x7F ↦ 127.0` matches the claim.
This theorem evaluates the code at the failing inputs. -/
theorem getSignedValue_negative_unmasked :
    _GetSignedValue [0x80] 0 1 = 128 ∧
    _GetSignedValue [0x7F] 0 1 = 127 ∧
    _GetSignedValue [0xFF, 0xFF] 0 2 = 65791 := by
  refine ⟨by decide, by decide, by decide⟩

/-- Claim C7 (status: confirmed).  The scaled sensor parser on header byte
`0b00100010` (precision 1, scale 0, size 2) followed by the magnitude bytes
`0x00, 0x64` yields the field `[scale 0, reading 10.0]` and consumes the
three bytes. -/
theorem parseSensor_scaled_reading :
    _ParseSensor [0x22, 0x00, 0x64] 0
      = (3, some (.list [.int 0, .rat 10])) := by
  have h : PyVal.rat 10 = PyVal.rat (((100 : Int) : ℚ) / 10 ^ (1 : Nat)) := by
    norm_num
  rw [h]
  exact rfl

/-- Claim C9 (status: code_bug).  A meter frame whose body ends right after
the meter header byte parses "successfully" to the FOUR-element list
`[meter_type, None, None, None]`: the early return of `_ExtractValues`
omits the `unit` slot that its normal path includes, while the meter
resolver (`GetValue`, `ItemMeterNormal` branch) requires exactly five
elements — resolving this very parse result fails its own length assert. -/
theorem parseMeter_empty_body_four_elements :
    _ParseMeter [0x21] 0 = (1, some (.list [.int 1, .pyNone, .pyNone, .pyNone])) ∧
    (GetValue [.str "ItemMeterNormal"]
        [.list [.int 1, .pyNone, .pyNone, .pyNone]]).1 = none := by
  exact ⟨rfl, rfl⟩

/-- Claim C10 (status: code_bug).  `_ParseStringWithLength` ('A') can never
return the declared bytes: the source's `m[index + 1, size]` indexes the
list with a tuple and raises `TypeError` on every call (modelled as an
error result).  `_ParseStringWithLengthAndEncoding` ('F') at cursor 1 on
`[0, 0x22, 65, 66]` (length byte `0x22`: encoding 1, size 2, followed by
bytes `65, 66`) returns cursor `1 + size = 3` instead of
`index + 1 + size = 4` and the single byte `[65]` (`m[index+1:index+size]`,
`size - 1` bytes) instead of `[65, 66]`. -/
theorem stringWithLength_parsers_broken :
    (_ParseStringWithLength [2, 65, 66] 0).2 = none ∧
    _ParseStringWithLengthAndEncoding [0, 0x22, 65, 66] 1
      = (3, some (.list [.int 1, .bytes [65]])) := by
  exact ⟨rfl, rfl⟩

/-- Claim C6 (status: confirmed).  Resolving a sensor-normal field list
`[kind, [scale, reading]]` with kind 1 (Temperature) and scale 0 yields a
`Value` with unit `"C"`; with scale 2 — an empty slot of the temperature
row — the resolver logs and fails its unit assert (no `Value` is produced
and no default unit is substituted). -/
theorem sensorNormal_unit_resolution (reading : PyVal) :
    (GetValue [.str "ItemSensorNormal"] [.int 1, .list [.int 0, reading]]).1
      = some ⟨.str "Temperature", .str "C", reading, .int 0, .rat 0⟩ ∧
    (GetValue [.str "ItemSensorNormal"] [.int 1, .list [.int 2, reading]]).1
      = none := by
  exact ⟨rfl, rfl⟩

/-- Helper for claim C4: whatever branch `GetValue` takes, the action list it
hands back is the input minus at least the leading type tag (every branch
returns a tail of the list after the first pop, or a further tail, or
`[]`). -/
theorem getValue_snd_length_le (t : PyVal) (act value : List PyVal) :
    ((GetValue (t :: act) value).2).length ≤ act.length := by
  rcases t with _ | n | q | s | bs | l | st <;> simp only [GetValue] <;> try simp
  split_ifs <;> (repeat' split) <;> simp_all <;> omega

/-- Claim C4, amended (status: corrected).  `GetValue` is a pure function of
its two arguments, but it is not mutation-free: it consumes its action
descriptor by popping from the front, so every successful call returns a
strictly shorter descriptor list, and a second sequential call on the same
(now mutated) descriptor does not operate on the argument the first call
received.  (The counterexample theorem below shows the second call can then
produce a different result.) -/
theorem getValue_consumes_action (a v : List PyVal) (val : Value)
    (a2 : List PyVal) (h : GetValue a v = (some val, a2)) :
    a2.length < a.length := by
  match a with
  | [] => simp [GetValue] at h
  | t :: act =>
    have hle := getValue_snd_length_le t act v
    rw [h] at hle
    simp only [List.length_cons] at hle ⊢
    omega

/-- Witness for `getValue_consumes_action`, at the const descriptor
`["ItemConst", "WakeUp", 1]` with the empty field list. -/
theorem getValue_consumes_action_witness :
    ([] : List PyVal).length
      < ([.str "ItemConst", .str "WakeUp", .int 1] : List PyVal).length := by
  exact getValue_consumes_action [.str "ItemConst", .str "WakeUp", .int 1] []
    ⟨.str "WakeUp", UNIT_NONE, .int 1, .int 0, .rat 0⟩ [] rfl

/-- Claim C4 counterexample.  Resolving the const descriptor
`["ItemConst", "WakeUp", 1]` against the same (empty) field list twice,
where — as in the source — the second call receives the descriptor as
mutated by the first (Python pops the caller's list in place), returns a
`Value` the first time and fails (`IndexError` on `pop(0)` of the emptied
list) the second time: the two results are not equal, refuting the claim
as stated. -/
theorem getValue_second_call_differs :
    (GetValue [.str "ItemConst", .str "WakeUp", .int 1] []).1
      = some ⟨.str "WakeUp", UNIT_NONE, .int 1, .int 0, .rat 0⟩ ∧
    (GetValue (GetValue [.str "ItemConst", .str "WakeUp", .int 1] []).2 []).1
      = none := by
  exact ⟨rfl, rfl⟩

/-- Claim C1 (status: code_bug).  The round trip
`ParseCommand(AssembleCommand([class, command] + args)) == args` fails for a
registered schema `['N']` with the well-shaped argument `"AB"`:
`AssembleCommand`'s `'N'` branch appends the literal byte `1` and drops the
string itself (the source's character-emission loop is commented out), so
the decoder — reading byte `1` as the Latin-1 selector over an empty
remainder — returns `""` instead of `"AB"`. -/
theorem roundtrip_N_schema_fails :
    AssembleCommand nameReportTable [.int 119, .int 3, .str "AB"]
      = some [119, 3, 1] ∧
    ParseCommand nameReportTable [119, 3, 1] = some [.str ""] ∧
    PyVal.str "" ≠ PyVal.str "AB" := by
  refine ⟨rfl, rfl, fun h => ?_⟩
  injection h with h2
  exact absurd h2 (by decide)

/-- Claim C5 (status: confirmed).  A frame of at least two bytes whose
(class, command) key is not registered decodes to the unknown-command
result — the empty field list — and the outcome is the same for every
body, i.e. no body byte past the header is consumed.  (The schema table is
spec-modelled, see `_GetParameterDescriptors`.) -/
theorem parseCommand_unknown_command (lookup : Nat → Option (List Char))
    (c d : Nat) (rest rest2 : List Nat)
    (h : lookup (c * 256 + d) = none) :
    ParseCommand lookup (c :: d :: rest) = some [] ∧
    ParseCommand lookup (c :: d :: rest)
      = ParseCommand lookup (c :: d :: rest2) := by
  unfold ParseCommand _GetParameterDescriptors
  simp [h]

/-- Witness for `parseCommand_unknown_command`: the empty table, frame
`[1, 2, 7]` against frame `[1, 2, 8, 9]`. -/
theorem parseCommand_unknown_command_witness :
    ((fun _ : Nat => (none : Option (List Char))) (1 * 256 + 2) = none) ∧
    ParseCommand (fun _ => none) [1, 2, 7] = some [] := by
  exact ⟨rfl,
    (parseCommand_unknown_command (fun _ => none) 1 2 [7] [8, 9] rfl).1⟩

/-- Claim C8 counterexample.  The first byte `0x64` has low three bits `4`
and top three bits `3`, so under either reading of a "3-bit encoding
selector" the selector lies outside `{0, 1, 2}` and the claim demands a
decode error; but `_ParseName` masks only TWO bits (`m[index] & 3 = 0`,
ASCII) and returns the decoded string `"A"`. -/
theorem parseName_three_bit_selector_refuted :
    _ParseName [0x64, 0x41] 0 = (2, some (.str "A")) ∧
    (_ParseName [0x64, 0x41] 0).2 ≠ none ∧
    (0x64 : Nat) &&& 7 = 4 ∧ (0x64 : Nat) >>> 5 = 3 := by
  refine ⟨rfl, fun h => Option.noConfusion h, by decide, by decide⟩

/-- Claim C8, amended (status: corrected).  `_ParseName` reads a 2-bit
encoding selector (`m[index] & 3`) from its first byte and decodes the rest
of the buffer as ASCII (selector 0), Latin-1 (selector 1) or UTF-16
big-endian (selector 2); selector 3 — the only value of the 2-bit field
outside `{0, 1, 2}` — is a decode error (an out-of-range index into the
3-entry decoder table), not a decoded string. -/
theorem parseName_two_bit_selector :
    (∀ m i, i < m.length → m.getD i 0 &&& 3 = 3 →
      (_ParseName m i).2 = none) ∧
    (∀ m i, i < m.length → m.getD i 0 &&& 3 = 0 →
      _ParseName m i
        = (m.length, (decodeAscii (m.drop (i + 1))).map strOfCodePoints)) ∧
    (∀ m i, i < m.length → m.getD i 0 &&& 3 = 1 →
      _ParseName m i
        = (m.length, (decodeLatin1 (m.drop (i + 1))).map strOfCodePoints)) ∧
    (∀ m i, i < m.length → m.getD i 0 &&& 3 = 2 →
      _ParseName m i
        = (m.length, (decodeUtf16be (m.drop (i + 1))).map strOfCodePoints)) := by
  refine ⟨fun m i hi hs => ?_, fun m i hi hs => ?_,
          fun m i hi hs => ?_, fun m i hi hs => ?_⟩
  all_goals
    simp only [_ParseName, hi, if_true]
    rw [hs]
    simp [_ENCODING_TO_DECODER, decodeText]

/-- Witness for `parseName_two_bit_selector`: one instance per selector
value. -/
theorem parseName_two_bit_selector_witness :
    (_ParseName [3] 0).2 = none ∧
    _ParseName [0, 65] 0 = (2, (decodeAscii [65]).map strOfCodePoints) ∧
    _ParseName [1, 200] 0 = (2, (decodeLatin1 [200]).map strOfCodePoints) ∧
    _ParseName [2, 0, 65] 0 = (3, (decodeUtf16be [0, 65]).map strOfCodePoints) := by
  exact ⟨parseName_two_bit_selector.1 [3] 0 (by decide) (by decide),
         parseName_two_bit_selector.2.1 [0, 65] 0 (by decide) (by decide),
         parseName_two_bit_selector.2.2.1 [1, 200] 0 (by decide) (by decide),
         parseName_two_bit_selector.2.2.2 [2, 0, 65] 0 (by decide) (by decide)⟩

/-- Claim C3 counterexample.  `_ParseBitVector` on buffer `[2, 1]` at
cursor 0 declares a width of `1 + m[0] = 3` bytes while only 2 are
available, yet it returns the set value `{0}` built from the clamped
1-byte slice — a non-`None` result on truncated input, refuting the claim
that EVERY parser of the action table reports `None` in that situation. -/
theorem truncated_bitVector_not_none :
    ([2, 1] : List Nat).length < 0 + 1 + ([2, 1] : List Nat).getD 0 0 ∧
    (_ParseBitVector [2, 1] 0).2 = some (.set {0}) ∧
    (_ParseBitVector [2, 1] 0).2 ≠ none := by
  refine ⟨by decide, rfl, by simp [_ParseBitVector]⟩

/-- Claim C3, amended (status: corrected).  Of the parsers in the action
table, the length-checking ones — `_ParseByte`, `_ParseWord`, `_ParseDate`,
`_ParseNonce` and `_ParseSensor` — report a `None` value whenever fewer
bytes remain than their declared or derived width (their guards inspect
only the length and, for the sensor, the in-range header byte, so no
out-of-range read occurs); the remaining parsers do not have this property
(for instance `_ParseBitVector`, as the counterexample above shows, returns
a non-`None` set value built from the clamped slice on truncated input
instead of reporting an error). -/
theorem checked_parsers_report_truncation :
    (∀ m i, m.length < i + 1 → (_ParseByte m i).2 = none) ∧
    (∀ m i, m.length < i + 2 → (_ParseWord m i).2 = none) ∧
    (∀ m i, m.length < i + 7 → (_ParseDate m i).2 = none) ∧
    (∀ m i, m.length < i + 8 → (_ParseNonce m i).2 = none) ∧
    (∀ m i, m.length < i + 2 → (_ParseSensor m i).2 = none) ∧
    (∀ m i, i + 2 ≤ m.length → m.length < i + 1 + (m.getD i 0 &&& 7) →
      (_ParseSensor m i).2 = none) := by
  refine ⟨fun m i h => ?_, fun m i h => ?_, fun m i h => ?_,
          fun m i h => ?_, fun m i h => ?_, fun m i h1 h2 => ?_⟩
  · simp only [_ParseByte]
    rw [if_pos (by omega)]
  · simp only [_ParseWord]
    rw [if_pos (by omega)]
  · simp only [_ParseDate]
    rw [if_pos (by omega)]
  · simp only [_ParseNonce]
    rw [if_pos (by omega)]
  · simp only [_ParseSensor]
    rw [if_pos (by omega)]
  · simp only [_ParseSensor]
    rw [if_neg (by omega), if_pos h2]

/-- Witness for `checked_parsers_report_truncation`: one truncated input per
conjunct. -/
theorem checked_parsers_report_truncation_witness :
    (_ParseByte [] 0).2 = none ∧
    (_ParseWord [5] 0).2 = none ∧
    (_ParseDate [1, 2, 3] 0).2 = none ∧
    (_ParseNonce [1] 0).2 = none ∧
    (_ParseSensor [9] 0).2 = none ∧
    (_ParseSensor [0x04, 1] 0).2 = none := by
  exact ⟨checked_parsers_report_truncation.1 [] 0 (by decide),
         checked_parsers_report_truncation.2.1 [5] 0 (by decide),
         checked_parsers_report_truncation.2.2.1 [1, 2, 3] 0 (by decide),
         checked_parsers_report_truncation.2.2.2.1 [1] 0 (by decide),
         checked_parsers_report_truncation.2.2.2.2.1 [9] 0 (by decide),
         checked_parsers_report_truncation.2.2.2.2.2 [0x04, 1] 0
           (by decide) (by decide)⟩

/-- Witness for `sensorNormal_unit_resolution`, at the concrete reading
`21.0`. -/
theorem sensorNormal_unit_resolution_witness :
    (GetValue [.str "ItemSensorNormal"] [.int 1, .list [.int 0, .rat 21]]).1
      = some ⟨.str "Temperature", .str "C", .rat 21, .int 0, .rat 0⟩ ∧
    (GetValue [.str "ItemSensorNormal"] [.int 1, .list [.int 2, .rat 21]]).1
      = none := by
  exact sensorNormal_unit_resolution (.rat 21)
